import Mathlib

/-!
Verification of the kube-py client library (src/kube/kube.py, src/kube/manifests.py,
src/kube/enums.py) against its natural-language specification.

The Python source is shallowly embedded: each builder object becomes a Lean
structure holding the mutable attributes, each method becomes a function from the
old state to the new state (paired with the emitted value where the method
returns one), and Python exceptions become `Except String` / explicit result
constructors.  Python dicts become association lists that preserve insertion
order, matching CPython's dict semantics.  Python truthiness (`None`, `""`, `[]`
and `0` are falsy) is modelled explicitly at each use site.

The module `templates.py` (mixins `ObjectMetadata`, `V1Primitive`,
`PodTemplateSpec`) is imported by `manifests.py` but is not part of the sources;
the few definitions taken from it are modelled from the specification and are
marked `Modelled from the spec:` in their doc comments.
-/

/-- Association-list store with Python-dict semantics: assignment to an existing
key updates it in place (keeping its position), a new key is appended at the
end, matching CPython insertion-order dicts. -/
def upsert (k : String) (v : α) : List (String × α) → List (String × α)
  | [] => [(k, v)]
  | (k', v') :: rest => if k' = k then (k', v) :: rest else (k', v') :: upsert k v rest

/-- Association-list lookup (Python `dict.get`). -/
def lookupA (k : String) : List (String × α) → Option α
  | [] => none
  | (k', v') :: rest => if k' = k then some v' else lookupA k rest

/-- UTF-8 encoding of a single code point (Python `str.encode()` per character). -/
def utf8Char (n : Nat) : List Nat :=
  if n < 0x80 then [n]
  else if n < 0x800 then [0xC0 + n / 64, 0x80 + n % 64]
  else if n < 0x10000 then [0xE0 + n / 4096, 0x80 + n / 64 % 64, 0x80 + n % 64]
  else [0xF0 + n / 262144, 0x80 + n / 4096 % 64, 0x80 + n / 64 % 64, 0x80 + n % 64]

/-- UTF-8 encoding of a string (Python `str.encode()`). -/
def utf8Bytes (s : String) : List Nat :=
  s.data.foldr (fun c acc => utf8Char c.toNat ++ acc) []

/-- The base64 alphabet (RFC 4648, as used by Python `base64.b64encode`). -/
def b64Alphabet : List Char :=
  "ABCDEFGHIJKLMNOPQRSTUVWXYZabcdefghijklmnopqrstuvwxyz0123456789+/".data

def b64Char (n : Nat) : Char := b64Alphabet.getD n 'A'

/-- Standard base64 of a byte list, with `=` padding (Python `base64.b64encode`). -/
def b64EncodeBytes : List Nat → List Char
  | [] => []
  | [a] => [b64Char (a / 4), b64Char (a % 4 * 16), '=', '=']
  | [a, b] => [b64Char (a / 4), b64Char (a % 4 * 16 + b / 16), b64Char (b % 16 * 4), '=']
  | a :: b :: c :: rest =>
      [b64Char (a / 4), b64Char (a % 4 * 16 + b / 16),
       b64Char (b % 16 * 4 + c / 64), b64Char (c % 64)] ++ b64EncodeBytes rest

/-- `base64.b64encode(v.encode()).decode()` for a string `v`. -/
def b64String (v : String) : String := String.mk (b64EncodeBytes (utf8Bytes v))

/-- JSON string escaping for quote and backslash (the subset of `json.dumps`
escaping exercised by the builder payloads). -/
def jsonEscape (s : String) : String :=
  String.mk (s.data.foldr
    (fun c acc =>
      if c = Char.ofNat 34 then Char.ofNat 92 :: Char.ofNat 34 :: acc
      else if c = Char.ofNat 92 then Char.ofNat 92 :: Char.ofNat 92 :: acc
      else c :: acc) [])

def jsonString (s : String) : String := "\"" ++ jsonEscape s ++ "\""

/-- `json.dumps` of a dict whose values are already serialized, with the default
separators `(", ", ": ")` and insertion order preserved. -/
def jsonObj (fields : List (String × String)) : String :=
  "\x7b" ++ String.intercalate ", " (fields.map (fun p => jsonString p.1 ++ ": " ++ p.2)) ++ "\x7d"

/-! ## kube.py: the request wrapper, exec, scale and wait_pods -/

/-- Outcome of one underlying Kubernetes API call: either a typed response or an
`ApiException` carrying an HTTP status. -/
inductive ApiOutcome (α : Type) where
  | ok (a : α)
  | apiError (status : Nat)
deriving DecidableEq

/-- `KubeApi._wrapper` (kube.py lines 360-409).  `func` is the wrapped API call,
abstracted as a function of the namespace it is invoked against (the namespaced,
cluster-scoped and custom-object branches differ only in how the namespace and
the `CustomObjectDef` triple are passed positionally).  `ns` is taken from the
`namespace=` kwarg, defaulting to the facade's `self._ns`.  `ApiException` with
status 404 is normalized to `none`; any other `ApiException` re-raises iff
`check_err`, otherwise is logged and swallowed to `none`. -/
def wrapperRun (func : String → ApiOutcome α) (selfNs : String)
    (kwNs : Option String) (check_err : Bool) : Except Nat (Option α) :=
  let ns := kwNs.getD selfNs
  match func ns with
  | .ok a => .ok (some a)
  | .apiError s =>
      if s = 404 then .ok none
      else if check_err then .error s
      else .ok none

/-- `KubeApi._wrapper_create` (kube.py lines 411-439).  Same shape as
`wrapperRun` but used for `create_*` calls: status 409 (already exists) is the
one normalized to `none`; every other `ApiException` (404 included) re-raises
iff `check_err`. -/
def wrapperCreateRun (func : String → ApiOutcome α) (selfNs : String)
    (kwNs : Option String) (check_err : Bool) : Except Nat (Option α) :=
  let ns := kwNs.getD selfNs
  match func ns with
  | .ok a => .ok (some a)
  | .apiError s =>
      if s = 409 then .ok none
      else if check_err then .error s
      else .ok none

/-- The keyword arguments accepted by `KubeApi._exec` that matter for the call
assembly (kube.py lines 220-230); `none` means the caller did not pass the
kwarg, so `setdefault` applies. -/
structure ExecKwargs where
  stdout : Option Bool := none
  stderr : Option Bool := none
  stdin : Option Bool := none
  tty : Option Bool := none
  preloadContent : Option Bool := none
  container : Option String := none
  namespaceArg : Option String := none
deriving DecidableEq

/-- The positional/keyword arguments `KubeApi._exec` hands to
`stream(self.core_v1.connect_post_namespaced_pod_exec, pod_name, self._ns, ...)`. -/
structure ExecCall where
  podName : String
  namespaceArg : String
  command : List String
  stdout : Bool
  stderr : Bool
  stdin : Bool
  tty : Bool
  preloadContent : Bool
  container : Option String
deriving DecidableEq

/-- Argument assembly of `KubeApi._exec` (kube.py lines 220-230):
`kwargs.setdefault` fills the defaults, `ns = kwargs.pop('namespace', self._ns)`
is computed, but the stream call receives `self._ns`, not `ns`. -/
def execBuildCall (selfNs podName : String) (command : List String)
    (kw : ExecKwargs) : ExecCall :=
  let stdout := kw.stdout.getD true
  let stderr := kw.stderr.getD true
  let stdin := kw.stdin.getD false
  let tty := kw.tty.getD false
  let preload := kw.preloadContent.getD false
  let _ns := kw.namespaceArg.getD selfNs
  { podName := podName
    namespaceArg := selfNs
    command := command
    stdout := stdout
    stderr := stderr
    stdin := stdin
    tty := tty
    preloadContent := preload
    container := kw.container }

/-- The status document read from the exec error channel,
`{"status": ..., "details": {"causes": [{"message": ...}, ...]}}`; `causes`
lists the `message` fields. -/
structure ExecStatusDoc where
  status : String
  causes : List String
deriving DecidableEq

/-- Python `int(str)` on a decimal numeral with optional leading minus sign
(the shape of the exit-code `message` in the exec status document); `none`
models the `ValueError` raised on non-numeric input. -/
def digitsToNat? (cs : List Char) : Option Nat :=
  if cs = [] then none
  else cs.foldl (fun acc c => acc.bind
    (fun n => if c.isDigit then some (n * 10 + (c.toNat - 48)) else none)) (some 0)

def pyInt? (s : String) : Option Int :=
  match s.data with
  | '-' :: rest => (digitsToNat? rest).map (fun n => -(n : Int))
  | cs => (digitsToNat? cs).map (fun n => (n : Int))

/-- Result of the tail of `KubeApi._exec` (kube.py lines 238-250) after the
error channel has been decoded. -/
inductive ExecFinishResult (σ : Type) where
  | streamed
  | preloaded (stdout stderr : σ) (err : ExecStatusDoc)
  | raised (msg : String)
  | pyError (e : String)
deriving DecidableEq

/-- Tail of `KubeApi._exec` (kube.py lines 242-250): with `_preload_content`
the triple `(stdout, stderr, err)` is returned regardless of status; otherwise
a non-`"Success"` status raises
`command "<joined>" ended with status code: <code>` where the code is
`int(err['details']['causes'][0]['message'])`.  Python's `IndexError` on an
empty causes list and `ValueError` on a non-numeric message are kept explicit. -/
def execFinish (command : List String) (preload : Bool) (stdout stderr : σ)
    (err : ExecStatusDoc) : ExecFinishResult σ :=
  if preload then .preloaded stdout stderr err
  else if err.status ≠ "Success" then
    match err.causes with
    | [] => .pyError "IndexError"
    | m :: _ =>
        match pyInt? m with
        | none => .pyError "ValueError"
        | some code =>
            .raised ("command \"" ++ String.intercalate " " command ++
              "\" ended with status code: " ++ toString code)
  else .streamed

/-- The typed response of a patch on a workload, as used by `KubeApi._scale`:
the attributes the method dereferences. -/
structure WorkloadResp where
  kind : String
  templateLabels : List (String × String)
deriving DecidableEq

/-- `KubeApi._scale` (kube.py lines 916-929): builds the patch body
`{"spec": {"replicas": N}}`, calls `_wrapper` with `check_err=True`, then
dereferences `resp.kind` — which is an `AttributeError` when the wrapper
normalized a 404 to `None`. -/
def scaleRun (outcome : ApiOutcome WorkloadResp) (selfNs name : String)
    (replicas : Int) : Except String WorkloadResp :=
  let _body := replicas
  match wrapperRun (fun _ => outcome) selfNs none true with
  | .error s => .error ("ApiException: " ++ toString s)
  | .ok none => .error "AttributeError: NoneType object has no attribute kind"
  | .ok (some resp) =>
      let _msg := resp.kind.toLower ++ ".apps/" ++ name ++ " scaled to " ++
        toString replicas ++ " replicas"
      .ok resp

/-- A pod as observed by `is_pod_ready` (kube.py lines 41-43): whether
`metadata.deletion_timestamp` is set, and `status.container_statuses`
(`none` models Python `None`, handled by `or []`); each element is the
container status's `ready` flag. -/
structure PodC where
  deletionTimestamp : Bool
  containerStatuses : Option (List Bool)
deriving DecidableEq

/-- `is_pod_ready` (kube.py lines 41-43). -/
def is_pod_ready (pod : PodC) : Bool :=
  !pod.deletionTimestamp && (pod.containerStatuses.getD []).all id

inductive WaitOutcome where
  | returned
  | timeout
deriving DecidableEq

/-- The loop of `KubeApi.wait_pods` (kube.py lines 957-974).  `podsAt k` is the
pod list returned by `pod_list` on the k-th iteration; `slept` accumulates the
wall seconds spent in `time.sleep`.  The `fuel` argument bounds the unrolling of
the Python `while 1`; `none` means the bound was hit before the loop decided. -/
def waitLoop (podsAt : Nat → List PodC) (delay : Int) :
    Nat → Int → Nat → Int → Option (WaitOutcome × Int)
  | 0, _, _, _ => none
  | fuel + 1, t, k, slept =>
    let pods := podsAt k
    if pods = [] then some (WaitOutcome.returned, slept)
    else if pods.all is_pod_ready then some (WaitOutcome.returned, slept)
    else if t ≤ 0 then some (WaitOutcome.timeout, slept)
    else waitLoop podsAt delay fuel (t - delay) (k + 1) (slept + delay)

/-- `KubeApi.wait_pods` (kube.py lines 946-974): sleeps `start_delay`, then runs
the listing loop.  Source defaults: `delay=3, timeout=120, start_delay=3`. -/
def wait_pods (podsAt : Nat → List PodC) (delay timeout start_delay : Int)
    (fuel : Nat) : Option (WaitOutcome × Int) :=
  waitLoop podsAt delay fuel timeout 0 start_delay

/-! ## manifests.py: builders -/

/-- Modelled from the spec: the `ObjectMetadata` (MetaMixin) state from the
missing `templates.py` — "Builds `metadata` (name, labels, annotations) shared
by every resource"; the constructor takes the name. -/
structure ObjectMeta where
  name : String
  labels : Option (List (String × String)) := none
  annotations : Option (List (String × String)) := none
deriving DecidableEq

/-- A value passed to `V1Primitive.set`: Python distinguishes textual (`str`)
from `bytes` payloads. -/
inductive PValue where
  | str (s : String)
  | bytes (b : List Nat)
deriving DecidableEq

/-- `Secret` builder state (manifests.py lines 291-300 plus the `V1Primitive`
mixin fields `_string_data`, `_binary_data`, `_immutable` from the missing
`templates.py`). `typ` holds the `SecretType` enum's string value. -/
structure Secret where
  metadata : ObjectMeta
  typ : String
  stringData : List (String × String) := []
  binaryData : List (String × String) := []
  immutable : Option Bool := none
deriving DecidableEq

/-- `SecretType` enum values from enums.py used here. -/
def SecretTypeOpaque : String := "Opaque"

def SecretTypeDockerConfigJSON : String := "kubernetes.io/dockerconfigjson"

/-- `Secret.__init__(name, typ)` (manifests.py lines 292-300). -/
def Secret.init (name : String) (typ : String) : Secret :=
  { metadata := { name := name }, typ := typ }

/-- `Secret.to_base64` (manifests.py lines 302-303):
`base64.b64encode(v.encode()).decode()`. -/
def Secret.to_base64 (v : String) : String := b64String v

/-- Modelled from the spec: `V1Primitive.set` from the missing `templates.py` —
"`set(key, value)` routes to `string_data` for textual, `binary_data` for
bytes"; together with "A Secret emits `data` as base64-encoded bytes;
`string_data` passes through verbatim", the bytes route stores the
base64-encoded payload while the textual route stores the value unchanged. -/
def Secret.set (s : Secret) (k : String) (v : PValue) : Secret :=
  match v with
  | .str t => { s with stringData := upsert k t s.stringData }
  | .bytes b => { s with binaryData := upsert k (String.mk (b64EncodeBytes b)) s.binaryData }

/-- The emitted `V1Secret` (the attributes `Secret.manifest` assigns). -/
structure SecretManifest where
  metadata : ObjectMeta
  typ : String
  immutable : Option Bool
  stringData : Option (List (String × String))
  data : Option (List (String × String))
deriving DecidableEq

/-- `Secret.manifest` (manifests.py lines 305-315): deep-clones `_secret`,
attaches metadata and immutable, and copies `_string_data` to `string_data`
and `_binary_data` to `data` only when they are truthy (an empty Python dict is
falsy, so the field stays `None`).  The method writes only to the clone, so the
builder state is returned unchanged. -/
def Secret.manifest (s : Secret) : SecretManifest × Secret :=
  ({ metadata := s.metadata
     typ := s.typ
     immutable := s.immutable
     stringData := if s.stringData = [] then none else some s.stringData
     data := if s.binaryData = [] then none else some s.binaryData }, s)

/-- One value of the `_registries` dict of `SecretImagePull`
(manifests.py lines 328-333). -/
structure RegistryEntry where
  username : String
  password : String
  email : String
  auth : String
deriving DecidableEq

/-- `json.dumps` of one registry entry, keys in insertion order. -/
def jsonRegistry (r : RegistryEntry) : String :=
  jsonObj [("username", jsonString r.username), ("password", jsonString r.password),
    ("email", jsonString r.email), ("auth", jsonString r.auth)]

/-- `json.dumps({"auths": self._registries})` (manifests.py line 337). -/
def jsonDumpsAuths (regs : List (String × RegistryEntry)) : String :=
  jsonObj [("auths", jsonObj (regs.map (fun p => (p.1, jsonRegistry p.2))))]

/-- `SecretImagePull` builder state (manifests.py lines 318-322). -/
structure SecretImagePull where
  sec : Secret
  registries : List (String × RegistryEntry) := []
deriving DecidableEq

/-- `SecretImagePull.__init__` (manifests.py lines 319-322). -/
def SecretImagePull.init (name : String) : SecretImagePull :=
  { sec := Secret.init name SecretTypeDockerConfigJSON }

/-- `SecretImagePull.add_registry` (manifests.py lines 324-333): a truthy
existing entry for `registry` makes the call a no-op, otherwise the entry is
inserted with `auth = base64(username + ":" + password)`. -/
def SecretImagePull.add_registry (s : SecretImagePull)
    (registry username password email : String) : SecretImagePull :=
  match lookupA registry s.registries with
  | some _ => s
  | none =>
      let entry : RegistryEntry :=
        { username := username, password := password, email := email,
          auth := Secret.to_base64 (username ++ ":" ++ password) }
      { s with registries := upsert registry entry s.registries }

/-- The inherited `set` on `SecretImagePull` (via `Secret` / `V1Primitive`). -/
def SecretImagePull.set (s : SecretImagePull) (k : String) (v : PValue) : SecretImagePull :=
  { s with sec := s.sec.set k v }

/-- `SecretImagePull.manifest` (manifests.py lines 335-340): serializes the
registries to JSON, calls `self.set(".dockerconfigjson", self.to_base64(auth))`
— mutating the builder — and then emits `super().manifest` from the mutated
state. -/
def SecretImagePull.manifest (s : SecretImagePull) : SecretManifest × SecretImagePull :=
  let auth := jsonDumpsAuths s.registries
  let s' := s.set ".dockerconfigjson" (PValue.str (Secret.to_base64 auth))
  ((Secret.manifest s'.sec).1, s')

/-- One `V1LabelSelectorRequirement` (key, operator, values). -/
structure MatchExpr where
  key : String
  operator : String
  values : List String
deriving DecidableEq

/-- The `V1LabelSelector` attributes of a Deployment/StatefulSet spec as the
builders leave them.  `matchExpression` (singular) is the stray Python
attribute created by the misspelled assignment in
`add_selector_match_expressions`; the generated client object has no
`__slots__`, so the assignment silently creates it instead of failing. -/
structure SelectorState where
  matchLabels : Option (List (String × String)) := none
  matchExpressions : Option (List MatchExpr) := none
  matchExpression : Option (List MatchExpr) := none
deriving DecidableEq

def allowedOperators : List String := ["In", "NotIn", "Exists", "DoesNotExist"]

/-- `add_selector_match_expressions` shared verbatim by `Deployment`
(manifests.py lines 167-181) and `StatefulSet` (lines 243-257), acting on the
selector.  The operator is validated; if the (plural) `match_expressions`
attribute is truthy, a matching `(key, operator)` pair returns early, and
otherwise the append targets the (misspelled, singular) `match_expression`
attribute, raising `AttributeError` when it was never created; if
`match_expressions` is falsy, `match_expression` is (re)assigned `[]` and the
new requirement appended to it. -/
def addSelectorMatchExpressions (sel : SelectorState) (key operator : String)
    (values : List String) : Except String SelectorState :=
  if ¬ allowedOperators.contains operator then
    .error ("Invalid operator value `" ++ operator ++ "`. Can be one of `" ++
      String.intercalate ", " allowedOperators ++ "`")
  else
    match sel.matchExpressions with
    | some (e :: es) =>
        if (e :: es).any (fun x => x.key = key && x.operator = operator) then .ok sel
        else
          match sel.matchExpression with
          | some l =>
              .ok { sel with matchExpression := some (l ++ [⟨key, operator, values⟩]) }
          | none => .error "AttributeError: match_expression"
    | _ => .ok { sel with matchExpression := some [⟨key, operator, values⟩] }

/-- Modelled from the spec: the pod-template sub-builder state
(`PodTemplateSpec` from the missing `templates.py`) — a container list plus
template metadata; its `manifest` emits "a fresh deep clone", which under value
semantics is the state itself. -/
structure PodTemplateState where
  containers : List String
  labels : Option (List (String × String)) := none
  annotations : Option (List (String × String)) := none
deriving DecidableEq

/-- Modelled from the spec: `PodTemplateSpec.manifest` — the deep-clone
emission of the sub-builder, the identity under value semantics. -/
def podTemplateManifest (t : PodTemplateState) : PodTemplateState := t

/-- `Deployment` builder state (manifests.py lines 120-130): the attributes of
`self._deploy` the mutators touch, plus metadata and the pod-template
sub-builder. -/
structure Deployment where
  metadata : ObjectMeta
  selector : SelectorState := {}
  replicas : Option Int := none
  template : PodTemplateState
deriving DecidableEq

/-- The emitted `V1Deployment` attributes `Deployment.manifest` assigns; the
selector is the pair `(match_labels, match_expressions)` the client object
serializes (the stray `match_expression` attribute is not part of the schema
and never serializes). -/
structure DeploymentManifest where
  metadata : ObjectMeta
  selector : Option (Option (List (String × String)) × Option (List MatchExpr))
  replicas : Option Int
  template : PodTemplateState
deriving DecidableEq

/-- `Deployment.manifest` (manifests.py lines 132-140): deep-clones, drops a
selector whose `match_expressions` and `match_labels` are both `None`, attaches
metadata and the composed pod template.  Only the clone is written, so the
builder state is returned unchanged. -/
def Deployment.manifest (d : Deployment) : DeploymentManifest × Deployment :=
  ({ metadata := d.metadata
     selector :=
       if d.selector.matchExpressions = none ∧ d.selector.matchLabels = none then none
       else some (d.selector.matchLabels, d.selector.matchExpressions)
     replicas := d.replicas
     template := podTemplateManifest d.template }, d)

/-- `Deployment.add_selector_match_expressions` (manifests.py lines 167-181). -/
def Deployment.add_selector_match_expressions (d : Deployment) (key operator : String)
    (values : List String) : Except String Deployment :=
  (addSelectorMatchExpressions d.selector key operator values).map
    (fun sel => { d with selector := sel })

/-- `StatefulSet` builder state (manifests.py lines 193-206): `service_name`
starts empty, the selector starts with both members `None`. -/
structure StatefulSet where
  metadata : ObjectMeta
  serviceName : String := ""
  selector : SelectorState := {}
  replicas : Option Int := none
  template : PodTemplateState
deriving DecidableEq

/-- The emitted `V1StatefulSet` attributes `StatefulSet.manifest` assigns. -/
structure StatefulSetManifest where
  metadata : ObjectMeta
  serviceName : String
  matchLabels : Option (List (String × String))
  matchExpressions : Option (List MatchExpr)
  replicas : Option Int
  template : PodTemplateState
deriving DecidableEq

/-- `StatefulSet.manifest` (manifests.py lines 208-220): raises when
`service_name` is falsy (the empty string), then when both selector members are
`None`; otherwise emits the clone with metadata and composed template. -/
def StatefulSet.manifest (s : StatefulSet) : Except String StatefulSetManifest :=
  if s.serviceName = "" then
    .error "Invalid value for `service_name`, must not be empty"
  else if s.selector.matchExpressions = none ∧ s.selector.matchLabels = none then
    .error "Invalid value for `selector`, must not be empty"
  else
    .ok { metadata := s.metadata
          serviceName := s.serviceName
          matchLabels := s.selector.matchLabels
          matchExpressions := s.selector.matchExpressions
          replicas := s.replicas
          template := podTemplateManifest s.template }

/-- `StatefulSet.add_selector_match_expressions` (manifests.py lines 243-257),
textually identical to the Deployment copy. -/
def StatefulSet.add_selector_match_expressions (s : StatefulSet) (key operator : String)
    (values : List String) : Except String StatefulSet :=
  (addSelectorMatchExpressions s.selector key operator values).map
    (fun sel => { s with selector := sel })

/-- A `V1TypedLocalObjectReference` as passed to `_ingress_backend`. -/
structure RefM where
  apiGroup : String
  kind : String
  name : String
deriving DecidableEq

/-- The `service_port` argument of `_ingress_backend`: Python `int | str`. -/
inductive PortArg where
  | int (n : Int)
  | str (s : String)
deriving DecidableEq

/-- Python truthiness of an optional string argument (`None` and `""` falsy). -/
def truthyStr : Option String → Bool
  | none => false
  | some s => s ≠ ""

/-- Python truthiness of the optional `service_port` (`None`, `0`, `""` falsy). -/
def truthyPort : Option PortArg → Bool
  | none => false
  | some (.int n) => n ≠ 0
  | some (.str s) => s ≠ ""

/-- A `V1ServiceBackendPort`: integer ports fill `number`, strings fill `name`
(`name` is `Option` because Python would pass `name=None` for a `None` port). -/
inductive BackendPort where
  | number (n : Int)
  | name (s : Option String)
deriving DecidableEq

/-- A `V1IngressBackend`: either a typed object reference in `resource` or a
`V1IngressServiceBackend` `(name, port)` in `service`. -/
structure BackendM where
  resource : Option RefM := none
  service : Option (Option String × BackendPort) := none
deriving DecidableEq

/-- `Ingress._ingress_backend` (manifests.py lines 475-495): requires a truthy
`service_name` or a `ref`; a truthy `service_name` without a truthy
`service_port` raises; a `ref` takes precedence; otherwise an `int` port maps to
`number` and any other port value to `name`. -/
def ingressBackend (service_name : Option String) (service_port : Option PortArg)
    (ref : Option RefM) : Except String BackendM :=
  if !truthyStr service_name && !ref.isSome then
    .error "Required service_name and port or object reference"
  else if truthyStr service_name && !truthyPort service_port then
    .error "Required both arguments service_name and port"
  else
    match ref with
    | some r => .ok { resource := some r }
    | none =>
        let port := match service_port with
          | some (.int n) => BackendPort.number n
          | some (.str s) => BackendPort.name (some s)
          | none => BackendPort.name none
        .ok { service := some (service_name, port) }

/-- One `V1HTTPIngressPath`. -/
structure IngPath where
  path : String
  pathType : String
  backend : BackendM
deriving DecidableEq

/-- One `V1IngressRule`: host plus `http.paths`. -/
structure IngRule where
  host : String
  paths : List IngPath
deriving DecidableEq

/-- One `V1IngressTLS` entry. -/
structure TLSEntry where
  hosts : List String
  secretName : Option String
deriving DecidableEq

/-- `Ingress` builder state (manifests.py lines 414-422): the spec attributes
the mutators of interest touch; `none` models the initial Python `None`. -/
structure Ingress where
  metadata : ObjectMeta
  rules : Option (List IngRule) := none
  tls : Option (List TLSEntry) := none
deriving DecidableEq

/-- Outcome of the rule-scan loop of `add_rule` (manifests.py lines 448-457):
no rule with the host exists, the first matching rule already holds the path
(early return), or the first matching rule got the path appended. -/
inductive RuleUpd where
  | noHost
  | noop
  | updated (rs : List IngRule)
deriving DecidableEq

/-- The `for i, rule in enumerate(self._ing.spec.rules)` loop of `add_rule`:
only the first rule whose `host` matches is inspected; a duplicate `path` under
it returns early, otherwise the new backend path is appended to that rule. -/
def updateRules (host : String) (bp : IngPath) : List IngRule → RuleUpd
  | [] => .noHost
  | r :: rest =>
      if r.host = host then
        if r.paths.any (fun p => p.path = bp.path) then .noop
        else .updated ({ r with paths := r.paths ++ [bp] } :: rest)
      else
        match updateRules host bp rest with
        | .noHost => .noHost
        | .noop => .noop
        | .updated rs => .updated (r :: rs)

/-- `Ingress.add_rule` (manifests.py lines 437-463): builds the backend path
(possibly raising from `_ingress_backend`), initializes `rules` to `[]` when it
is `None`, scans for the host, and appends a fresh rule when no rule carries
the host. -/
def Ingress.add_rule (s : Ingress) (host path path_type : String)
    (service_name : Option String) (service_port : Option PortArg)
    (ref : Option RefM) : Except String Ingress :=
  match ingressBackend service_name service_port ref with
  | .error e => .error e
  | .ok backend =>
      let bp : IngPath := { path := path, pathType := path_type, backend := backend }
      let rules := s.rules.getD []
      match updateRules host bp rules with
      | .noop => .ok { s with rules := some rules }
      | .updated rs => .ok { s with rules := some rs }
      | .noHost => .ok { s with rules := some (rules ++ [{ host := host, paths := [bp] }]) }

/-- `Ingress.add_tls` (manifests.py lines 465-473): with a truthy (non-empty)
`tls` list, an entry with the same `secret_name` returns early; a falsy `tls`
(`None` or `[]`) is reset to `[]`; then the new entry is appended. -/
def Ingress.add_tls (s : Ingress) (hosts : List String) (secret_name : Option String) :
    Ingress :=
  match s.tls with
  | some (e :: es) =>
      if (e :: es).any (fun t => t.secretName = secret_name) then s
      else { s with tls := some ((e :: es) ++ [{ hosts := hosts, secretName := secret_name }]) }
  | _ => { s with tls := some [{ hosts := hosts, secretName := secret_name }] }

/-- The first rule carrying `host`, the one `add_rule`'s scan acts on. -/
def firstHost (host : String) : List IngRule → Option IngRule
  | [] => none
  | r :: rest => if r.host = host then some r else firstHost host rest

/-! ## Helper lemmas -/

theorem strAppendAssoc : ∀ (a b c : String), a ++ b ++ c = a ++ (b ++ c)
  | ⟨a⟩, ⟨b⟩, ⟨c⟩ => congrArg String.mk (List.append_assoc a b c)

theorem strAppendEmpty : ∀ (a : String), a ++ "" = a
  | ⟨a⟩ => congrArg String.mk (List.append_nil a)

theorem upsert_idem (k : String) (v : α) (l : List (String × α)) :
    upsert k v (upsert k v l) = upsert k v l := by
  induction l with
  | nil => simp [upsert]
  | cons p rest ih =>
      by_cases h : p.1 = k
      · simp [upsert, h]
      · simp [upsert, h, ih]

theorem lookupA_upsert (k : String) (v : α) (l : List (String × α)) :
    lookupA k (upsert k v l) = some v := by
  induction l with
  | nil => simp [upsert, lookupA]
  | cons p rest ih =>
      by_cases h : p.1 = k
      · simp [upsert, lookupA, h]
      · simp [upsert, lookupA, h, ih]

/-! ## Claim C1 -/

/-- C1 (counterexample): the claim asserts that every call routed through the
request wrapper returns null and does not raise on HTTP 404 regardless of
`check_err`; but on the create path (`_wrapper_create`) a 404 with
`check_err = true` re-raises instead of returning null. -/
theorem c1_counterexample :
    wrapperCreateRun (α := Nat) (fun _ => ApiOutcome.apiError 404) "default" none true
      = Except.error 404
    ∧ (Except.error 404 : Except Nat (Option Nat)) ≠ Except.ok none := by
  exact ⟨rfl, fun h => Except.noConfusion h⟩

/-- C1 (amended): on the non-create wrapper (`_wrapper`), HTTP 404 yields null
without raising regardless of `check_err` and any other API error re-raises iff
`check_err`; on the create path (`_wrapper_create`), HTTP 409 yields null
regardless of `check_err` and any other API error — HTTP 404 included —
re-raises iff `check_err`; successful calls return their typed result on both
paths. -/
theorem c1_wrapper_error_classification (ce : Bool) (s : Nat) (selfNs : String)
    (kwNs : Option String) (a : Nat) :
    wrapperRun (α := Nat) (fun _ => ApiOutcome.apiError s) selfNs kwNs ce
      = (if s = 404 then Except.ok none else if ce then Except.error s else Except.ok none)
    ∧ wrapperCreateRun (α := Nat) (fun _ => ApiOutcome.apiError s) selfNs kwNs ce
      = (if s = 409 then Except.ok none else if ce then Except.error s else Except.ok none)
    ∧ wrapperRun (fun _ => ApiOutcome.ok a) selfNs kwNs ce = Except.ok (some a)
    ∧ wrapperCreateRun (fun _ => ApiOutcome.ok a) selfNs kwNs ce = Except.ok (some a) := by
  exact ⟨rfl, rfl, rfl, rfl⟩

/-! ## Claim C3 -/

/-- C3: `_exec` pops the `namespace=` kwarg into `ns` but passes `self._ns` to
the stream call, so the exec path (used by `run_command` and
`copy_file_from_pod`) ignores the override; the generic `_wrapper`, in
contrast, does invoke the wrapped call against the overriding namespace, and
against the facade default when no override is given. -/
theorem c3_exec_ignores_namespace_override :
    (execBuildCall "default" "p" ["ls"] { namespaceArg := some "other" }).namespaceArg
      = "default"
    ∧ ("default" : String) ≠ "other"
    ∧ wrapperRun (fun n => ApiOutcome.ok n) "default" (some "other") true
      = Except.ok (some "other")
    ∧ wrapperRun (fun n => ApiOutcome.ok n) "default" none true
      = Except.ok (some "default") := by
  refine ⟨rfl, by decide, rfl, rfl⟩

/-! ## Claim C5 -/

/-- C5: `StatefulSet.manifest` raises `InvalidArgument` (a `ValueError` in the
source) exactly when `service_name` is empty or the selector has neither
`matchLabels` nor `matchExpressions` set, and emission succeeds exactly when
the service name is non-empty and at least one selector member is set. -/
theorem c5_statefulset_manifest_validation (s : StatefulSet) :
    ((∃ e, StatefulSet.manifest s = Except.error e) ↔
      (s.serviceName = "" ∨ (s.selector.matchExpressions = none ∧ s.selector.matchLabels = none)))
    ∧ ((∃ m, StatefulSet.manifest s = Except.ok m) ↔
      (s.serviceName ≠ "" ∧ (s.selector.matchExpressions ≠ none ∨ s.selector.matchLabels ≠ none))) := by
  by_cases h1 : s.serviceName = ""
  · simp [StatefulSet.manifest, h1]
  · by_cases h2 : s.selector.matchExpressions = none ∧ s.selector.matchLabels = none
    · simp [StatefulSet.manifest, h1, h2]
      try tauto
    · simp [StatefulSet.manifest, h1, h2]
      try tauto

/-! ## Claim C10 -/

/-- C10: when the patch call behind `scale_deployment` / `scale_stateful_set`
answers HTTP 404, `_wrapper` (called with `check_err=True`) normalizes it to
`None`, and `_scale` then dereferences `resp.kind`, so the call raises an
`AttributeError` and never completes with a null result. -/
theorem c10_scale_on_404_raises_attribute_error (selfNs name : String) (replicas : Int) :
    wrapperRun (α := WorkloadResp) (fun _ => ApiOutcome.apiError 404) selfNs none true
      = Except.ok none
    ∧ scaleRun (ApiOutcome.apiError 404) selfNs name replicas
      = Except.error "AttributeError: NoneType object has no attribute kind"
    ∧ ∀ r, scaleRun (ApiOutcome.apiError 404) selfNs name replicas ≠ Except.ok r := by
  refine ⟨rfl, rfl, ?_⟩
  intro r h
  simp [scaleRun, wrapperRun] at h

/-! ## Claim C4 -/

/-- C4 (counterexample): the claim asserts
`Secret("creds", Opaque).set("password","s3cret").manifest.data ==
{"password": base64("s3cret")}`; under the spec's own description of
`V1Primitive.set` ("routes to `string_data` for textual"), a textual `set`
populates `string_data`, the `_binary_data` dict stays empty and falsy, and
`Secret.manifest` therefore leaves `data` as `None`. -/
theorem c4_counterexample :
    (Secret.manifest ((Secret.init "creds" SecretTypeOpaque).set "password"
        (PValue.str "s3cret"))).1.data = none
    ∧ (Secret.manifest ((Secret.init "creds" SecretTypeOpaque).set "password"
        (PValue.str "s3cret"))).1.data
      ≠ some [("password", Secret.to_base64 "s3cret")] := by
  exact ⟨rfl, fun h => Option.noConfusion h⟩

/-- C4 (amended): a key set with a textual value via the string path lands
verbatim in the emitted manifest's `string_data` and leaves the `data` side
untouched; concretely,
`Secret("creds", Opaque).set("password","s3cret").manifest` has
`string_data == {"password": "s3cret"}` and no `data`; `data` maps a key to the
base64 encoding only for values set via the bytes path. -/
theorem c4_textual_set_routes_to_string_data :
    (∀ (s : Secret) (k v : String),
        lookupA k ((s.set k (PValue.str v)).stringData) = some v
        ∧ (s.set k (PValue.str v)).binaryData = s.binaryData)
    ∧ (Secret.manifest ((Secret.init "creds" SecretTypeOpaque).set "password"
        (PValue.str "s3cret"))).1.stringData = some [("password", "s3cret")]
    ∧ (Secret.manifest ((Secret.init "creds" SecretTypeOpaque).set "password"
        (PValue.str "s3cret"))).1.data = none
    ∧ (∀ (s : Secret) (k : String) (b : List Nat),
        lookupA k ((s.set k (PValue.bytes b)).binaryData)
          = some (String.mk (b64EncodeBytes b))) := by
  refine ⟨?_, rfl, rfl, ?_⟩
  · intro s k v
    exact ⟨lookupA_upsert k v s.stringData, rfl⟩
  · intro s k b
    exact lookupA_upsert k _ s.binaryData

/-! ## Claim C8 -/

/-- C8: the dedup of `add_selector_match_expressions` never engages because the
appends go to the misspelled `match_expression` attribute while the dedup scan
reads the (always unset) plural `match_expressions`; a second add with the same
`(key, operator)` pair but different values resets the stray list and replaces
the first requirement, so it is not a no-op, contradicting the claim — the
spec itself flags the misspelling as a source bug. -/
theorem c8_selector_dedup_never_engages :
    Deployment.add_selector_match_expressions
      ⟨⟨"web", none, none⟩, ⟨none, none, none⟩, none, ⟨["app"], none, none⟩⟩
      "k" "In" ["a"]
      = Except.ok ⟨⟨"web", none, none⟩, ⟨none, none, some [⟨"k", "In", ["a"]⟩]⟩,
          none, ⟨["app"], none, none⟩⟩
    ∧ Deployment.add_selector_match_expressions
      ⟨⟨"web", none, none⟩, ⟨none, none, some [⟨"k", "In", ["a"]⟩]⟩, none,
        ⟨["app"], none, none⟩⟩
      "k" "In" ["b"]
      = Except.ok ⟨⟨"web", none, none⟩, ⟨none, none, some [⟨"k", "In", ["b"]⟩]⟩,
          none, ⟨["app"], none, none⟩⟩
    ∧ (⟨none, none, some [⟨"k", "In", ["b"]⟩]⟩ : SelectorState)
      ≠ ⟨none, none, some [⟨"k", "In", ["a"]⟩]⟩
    ∧ (addSelectorMatchExpressions ⟨none, none, some [⟨"k", "In", ["a"]⟩]⟩
        "k" "In" ["a"]).map (fun sel => sel.matchExpressions) = Except.ok none := by
  refine ⟨rfl, rfl, by decide, rfl⟩

/-! ## Claim C2 -/

/-- C2 (counterexample): emitting `SecretImagePull.manifest` mutates the
builder (the `.dockerconfigjson` entry is upserted into its string data), and
the mutation is observable through the public surface: setting a further key
and emitting again serializes the keys in a different order than on a builder
that never emitted. -/
theorem c2_counterexample :
    (SecretImagePull.manifest (SecretImagePull.init "reg")).2 ≠ SecretImagePull.init "reg"
    ∧ (SecretImagePull.manifest
        (((SecretImagePull.manifest (SecretImagePull.init "reg")).2).set "x"
          (PValue.str "y"))).1
      ≠ (SecretImagePull.manifest ((SecretImagePull.init "reg").set "x"
          (PValue.str "y"))).1 := by
  constructor
  · intro h
    exact List.noConfusion (congrArg (fun s => s.sec.stringData) h)
  · intro h
    have h2 := congrArg (fun m => m.stringData) h
    simp only [SecretImagePull.manifest, SecretImagePull.set, SecretImagePull.init,
      Secret.manifest, Secret.set, Secret.init, upsert, lookupA] at h2
    revert h2
    decide

/-- C2 (amended): builders whose `manifest` only deep-clones (`Deployment`,
`Secret`) leave the builder state untouched and yield identical manifests on a
second read; `SecretImagePull.manifest` mutates the builder on the first read
by upserting the `.dockerconfigjson` entry, but a second read still yields an
identical manifest and causes no further state change. -/
theorem c2_manifest_reuse :
    (∀ d : Deployment, (Deployment.manifest d).2 = d
        ∧ (Deployment.manifest ((Deployment.manifest d).2)).1 = (Deployment.manifest d).1)
    ∧ (∀ s : Secret, (Secret.manifest s).2 = s
        ∧ (Secret.manifest ((Secret.manifest s).2)).1 = (Secret.manifest s).1)
    ∧ (∀ s : SecretImagePull,
        (SecretImagePull.manifest ((SecretImagePull.manifest s).2)).1
          = (SecretImagePull.manifest s).1
        ∧ (SecretImagePull.manifest ((SecretImagePull.manifest s).2)).2
          = (SecretImagePull.manifest s).2) := by
  refine ⟨fun d => ⟨rfl, rfl⟩, fun s => ⟨rfl, rfl⟩, fun s => ?_⟩
  have hset : ∀ (t : SecretImagePull) (k v : String),
      (t.set k (PValue.str v)).set k (PValue.str v) = t.set k (PValue.str v) := by
    intro t k v
    simp [SecretImagePull.set, Secret.set, upsert_idem]
  constructor
  · show (SecretImagePull.manifest ((SecretImagePull.manifest s).2)).1
      = (SecretImagePull.manifest s).1
    simp only [SecretImagePull.manifest]
    rw [show ((s.set ".dockerconfigjson"
        (PValue.str (Secret.to_base64 (jsonDumpsAuths s.registries)))).registries)
        = s.registries from rfl, hset]
  · show (SecretImagePull.manifest ((SecretImagePull.manifest s).2)).2
      = (SecretImagePull.manifest s).2
    simp only [SecretImagePull.manifest]
    rw [show ((s.set ".dockerconfigjson"
        (PValue.str (Secret.to_base64 (jsonDumpsAuths s.registries)))).registries)
        = s.registries from rfl, hset]

/-! ## Claim C6 -/

/-- C6: in non-preloaded mode a non-`"Success"` status makes `_exec` raise with
a message containing the space-joined command and the decoded integer exit
code; with preloaded content requested the triple
`(stdout sink, stderr sink, parsed error document)` is returned regardless of
status and nothing is raised. -/
theorem c6_exec_error_channel_handling {σ : Type} (command : List String)
    (stdout stderr : σ) (err : ExecStatusDoc) (m : String) (ms : List String) (code : Int)
    (hs : err.status ≠ "Success") (hc : err.causes = m :: ms) (hm : pyInt? m = some code) :
    (execFinish command false stdout stderr err
        = ExecFinishResult.raised ("command \"" ++ String.intercalate " " command ++
            "\" ended with status code: " ++ toString code)
      ∧ (∃ a b, ("command \"" ++ String.intercalate " " command ++
            "\" ended with status code: " ++ toString code)
          = a ++ String.intercalate " " command ++ b)
      ∧ (∃ a b, ("command \"" ++ String.intercalate " " command ++
            "\" ended with status code: " ++ toString code)
          = a ++ toString code ++ b))
    ∧ (∀ err2 : ExecStatusDoc,
        execFinish command true stdout stderr err2
          = ExecFinishResult.preloaded stdout stderr err2) := by
  refine ⟨⟨?_, ?_, ?_⟩, fun err2 => rfl⟩
  · simp [execFinish, hs, hc, hm]
  · exact ⟨"command \"", "\" ended with status code: " ++ toString code,
      by rw [strAppendAssoc]⟩
  · exact ⟨"command \"" ++ String.intercalate " " command ++ "\" ended with status code: ",
      "", by rw [strAppendEmpty]⟩

/-- C6 (witness): scenario D — command `["false"]`, error channel
`{"status":"Failure","details":{"causes":[{"message":"1"}]}}`. -/
theorem c6_exec_error_channel_handling_witness :
    (execFinish ["false"] false ([] : List String) ([] : List String) ⟨"Failure", ["1"]⟩
        = ExecFinishResult.raised ("command \"" ++ String.intercalate " " ["false"] ++
            "\" ended with status code: " ++ toString (1 : Int))
      ∧ (∃ a b, ("command \"" ++ String.intercalate " " ["false"] ++
            "\" ended with status code: " ++ toString (1 : Int))
          = a ++ String.intercalate " " ["false"] ++ b)
      ∧ (∃ a b, ("command \"" ++ String.intercalate " " ["false"] ++
            "\" ended with status code: " ++ toString (1 : Int))
          = a ++ toString (1 : Int) ++ b))
    ∧ (∀ err2 : ExecStatusDoc,
        execFinish ["false"] true ([] : List String) ([] : List String) err2
          = ExecFinishResult.preloaded [] [] err2) :=
  c6_exec_error_channel_handling ["false"] [] [] ⟨"Failure", ["1"]⟩ "1" [] 1
    (by decide) rfl (by decide)

/-! ## Claim C7 -/

/-- C7 (counterexample): with `delay=2, timeout=3, start_delay=1` and a pod
source that always yields one never-ready pod, `wait_pods` raises `Timeout`
after 5 wall seconds of sleeping, exceeding the claimed bound
`timeout + start_delay = 4` — the bound fails whenever `delay` does not divide
`timeout`. -/
theorem c7_counterexample :
    wait_pods (fun _ => [⟨false, some [false]⟩]) 2 3 1 10
      = some (WaitOutcome.timeout, 5)
    ∧ ¬ ((5 : Int) ≤ 3 + 1) := by
  exact ⟨rfl, by decide⟩

/-- The wait loop under a never-empty, never-all-ready pod source: with
positive `delay` and enough fuel it always ends in `Timeout`, having slept
`delay * n` further seconds for some `n` with
`delay * n ≤ max t 0 + (delay - 1)`. -/
theorem waitLoop_timeout_of_never_ready (podsAt : Nat → List PodC) (delay : Int)
    (hd : 1 ≤ delay) (hne : ∀ k, podsAt k ≠ [])
    (hnr : ∀ k, (podsAt k).all is_pod_ready = false) :
    ∀ (fuel : Nat) (t : Int) (k : Nat) (slept : Int), t.toNat < fuel →
      ∃ n : Nat, waitLoop podsAt delay fuel t k slept
          = some (WaitOutcome.timeout, slept + delay * n)
        ∧ delay * (n : Int) ≤ max t 0 + (delay - 1) := by
  intro fuel
  induction fuel with
  | zero => intro t k slept h; omega
  | succ f ih =>
      intro t k slept h
      by_cases ht : t ≤ 0
      · refine ⟨0, ?_, ?_⟩
        · simp [waitLoop, hne k, hnr k, ht]
        · rw [max_eq_right ht]
          simp
          omega
      · have ht' : (0 : Int) < t := by omega
        have hrec : (t - delay).toNat < f := by omega
        obtain ⟨m, hm, hb⟩ := ih (t - delay) (k + 1) (slept + delay) hrec
        refine ⟨m + 1, ?_, ?_⟩
        · have hstep : waitLoop podsAt delay (f + 1) t k slept
              = waitLoop podsAt delay f (t - delay) (k + 1) (slept + delay) := by
            simp [waitLoop, hne k, hnr k, ht]
          rw [hstep, hm]
          have : slept + delay + delay * (m : Int) = slept + delay * ((m : Nat) + 1 : Nat) := by
            push_cast
            ring
          rw [this]
        · have hmax : max t 0 = t := max_eq_left (le_of_lt ht')
          rcases le_or_lt 0 (t - delay) with hcase | hcase
          · rw [max_eq_left hcase] at hb
            rw [hmax]
            push_cast
            nlinarith
          · rw [max_eq_right (le_of_lt hcase)] at hb
            have hm0 : m = 0 := by
              by_contra hmne
              have h1m : (1 : Int) ≤ (m : Int) := by
                exact_mod_cast Nat.one_le_iff_ne_zero.mpr hmne
              have hmono : delay ≤ delay * (m : Int) :=
                le_mul_of_one_le_right (by omega) h1m
              omega
            subst hm0
            rw [hmax]
            push_cast
            ring_nf
            omega

/-- C7 (amended): under a pod source that is always non-empty and never
all-ready, `wait_pods` with positive `delay` terminates by raising `Timeout`
after sleeping `start_delay + delay * n` wall seconds for some `n`, bounded by
`start_delay + timeout + (delay - 1)` — equal to the claimed
`timeout + start_delay` exactly when `delay` divides `timeout`; with
`delay=1, timeout=3, start_delay=1` it raises after exactly 4 one-second
ticks. -/
theorem c7_wait_pods_timeout_bound :
    (∀ (podsAt : Nat → List PodC) (delay timeout start_delay : Int),
      1 ≤ delay → (∀ k, podsAt k ≠ []) →
      (∀ k, (podsAt k).all is_pod_ready = false) →
      ∃ n : Nat, wait_pods podsAt delay timeout start_delay (timeout.toNat + 1)
          = some (WaitOutcome.timeout, start_delay + delay * n)
        ∧ start_delay + delay * n ≤ start_delay + max timeout 0 + (delay - 1))
    ∧ wait_pods (fun _ => [⟨false, some [false]⟩]) 1 3 1 4
        = some (WaitOutcome.timeout, 4) := by
  constructor
  · intro podsAt delay timeout start_delay hd hne hnr
    obtain ⟨n, hn, hb⟩ := waitLoop_timeout_of_never_ready podsAt delay hd hne hnr
      (timeout.toNat + 1) timeout 0 start_delay (by omega)
    exact ⟨n, hn, by linarith⟩
  · rfl

/-- C7 (witness): the amended bound applied to the one-never-ready-pod source
with `delay=1, timeout=3, start_delay=1`. -/
theorem c7_wait_pods_timeout_bound_witness :
    ∃ n : Nat, wait_pods (fun _ => [⟨false, some [false]⟩]) 1 3 1 ((3 : Int).toNat + 1)
        = some (WaitOutcome.timeout, (1 : Int) + 1 * n)
      ∧ (1 : Int) + 1 * n ≤ 1 + max 3 0 + (1 - 1) := by
  refine c7_wait_pods_timeout_bound.1 (fun _ => [⟨false, some [false]⟩]) 1 3 1 ?_ ?_ ?_
  · norm_num
  · intro k
    simp
  · intro k
    rfl

/-! ## Claim C9 -/

/-- After `add_rule` appended a fresh rule for a host absent from `rs`, a
rescan for the same `(host, path)` hits the duplicate check. -/
theorem updateRules_noHost_append (host : String) (bp : IngPath) :
    ∀ rs : List IngRule, updateRules host bp rs = RuleUpd.noHost →
      updateRules host bp (rs ++ [⟨host, [bp]⟩]) = RuleUpd.noop := by
  intro rs
  induction rs with
  | nil =>
      intro _
      simp [updateRules]
  | cons r rest ih =>
      intro h
      by_cases hr : r.host = host
      · simp only [updateRules, if_pos hr] at h
        split at h <;> simp at h
      · simp only [updateRules, if_neg hr] at h
        cases hrec : updateRules host bp rest with
        | noHost =>
            rw [List.cons_append]
            simp only [updateRules, if_neg hr]
            rw [ih hrec]
        | noop => rw [hrec] at h; simp at h
        | updated rs2 => rw [hrec] at h; simp at h

/-- After `add_rule` appended the path to the first host-matching rule, a
rescan for the same `(host, path)` hits the duplicate check. -/
theorem updateRules_updated_noop (host : String) (bp : IngPath) :
    ∀ (rs rs' : List IngRule), updateRules host bp rs = RuleUpd.updated rs' →
      updateRules host bp rs' = RuleUpd.noop := by
  intro rs
  induction rs with
  | nil => intro rs' h; simp [updateRules] at h
  | cons r rest ih =>
      intro rs' h
      by_cases hr : r.host = host
      · simp only [updateRules, if_pos hr] at h
        by_cases hp : r.paths.any (fun p => p.path = bp.path)
        · rw [if_pos hp] at h
          simp at h
        · rw [if_neg hp] at h
          have hrs := RuleUpd.updated.inj h
          subst hrs
          simp [updateRules, hr, List.any_append]
      · simp only [updateRules, if_neg hr] at h
        cases hrec : updateRules host bp rest with
        | noHost => rw [hrec] at h; simp at h
        | noop => rw [hrec] at h; simp at h
        | updated rs2 =>
            rw [hrec] at h
            have hrs := RuleUpd.updated.inj h
            subst hrs
            simp only [updateRules, if_neg hr]
            rw [ih rs2 hrec]

/-- Adding a path absent from the first host-matching rule appends to that
rule's bucket and leaves the number of rules unchanged. -/
theorem updateRules_found (host : String) (bp : IngPath) :
    ∀ (rs : List IngRule) (r : IngRule), firstHost host rs = some r →
      r.paths.any (fun p => p.path = bp.path) = false →
      ∃ rs', updateRules host bp rs = RuleUpd.updated rs'
        ∧ rs'.length = rs.length
        ∧ firstHost host rs' = some { r with paths := r.paths ++ [bp] } := by
  intro rs
  induction rs with
  | nil => intro r h _; simp [firstHost] at h
  | cons r0 rest ih =>
      intro r h hp
      by_cases hr : r0.host = host
      · rw [firstHost, if_pos hr] at h
        have hr0 : r0 = r := Option.some.inj h
        subst hr0
        refine ⟨{ r0 with paths := r0.paths ++ [bp] } :: rest, ?_, by simp, ?_⟩
        · simp [updateRules, hr, hp]
        · simp [firstHost, hr]
      · rw [firstHost, if_neg hr] at h
        obtain ⟨rs', h1, h2, h3⟩ := ih r h hp
        refine ⟨r0 :: rs', ?_, by simp [h2], ?_⟩
        · simp only [updateRules, if_neg hr]
          rw [h1]
        · rw [firstHost, if_neg hr]
          exact h3

/-- C9: `Ingress.add_rule` is idempotent on `(host, path)` — repeating a
successful add leaves the state unchanged; adding a new path under an existing
host appends to that host's path list without creating a new rule; and
`Ingress.add_tls` is idempotent on `secret_name`. -/
theorem c9_ingress_rule_and_tls_idempotence :
    (∀ (s s1 : Ingress) (host path path_type : String) (sn : Option String)
        (sp : Option PortArg) (ref : Option RefM),
        Ingress.add_rule s host path path_type sn sp ref = Except.ok s1 →
        Ingress.add_rule s1 host path path_type sn sp ref = Except.ok s1)
    ∧ (∀ (s1 : Ingress) (rs : List IngRule) (r : IngRule) (host p2 pt2 : String)
        (sn2 : Option String) (sp2 : Option PortArg) (ref2 : Option RefM) (b2 : BackendM),
        s1.rules = some rs → firstHost host rs = some r →
        r.paths.any (fun q => q.path = p2) = false →
        ingressBackend sn2 sp2 ref2 = Except.ok b2 →
        ∃ rs', Ingress.add_rule s1 host p2 pt2 sn2 sp2 ref2
            = Except.ok { s1 with rules := some rs' }
          ∧ rs'.length = rs.length
          ∧ firstHost host rs' = some { r with paths := r.paths ++ [⟨p2, pt2, b2⟩] })
    ∧ (∀ (s : Ingress) (hosts hosts2 : List String) (sn : Option String),
        Ingress.add_tls (Ingress.add_tls s hosts sn) hosts2 sn
          = Ingress.add_tls s hosts sn) := by
  refine ⟨?_, ?_, ?_⟩
  · intro s s1 host path pt sn sp ref h
    unfold Ingress.add_rule at h ⊢
    cases hb : ingressBackend sn sp ref with
    | error e => rw [hb] at h; exact Except.noConfusion h
    | ok b =>
        rw [hb] at h
        simp only at h ⊢
        cases hu : updateRules host ⟨path, pt, b⟩ (s.rules.getD []) with
        | noop =>
            rw [hu] at h
            have hs1 : { s with rules := some (s.rules.getD []) } = s1 := Except.ok.inj h
            subst hs1
            simp only [Option.getD_some]
            rw [hu]
        | updated rs' =>
            rw [hu] at h
            have hs1 : { s with rules := some rs' } = s1 := Except.ok.inj h
            subst hs1
            simp only [Option.getD_some]
            rw [updateRules_updated_noop host ⟨path, pt, b⟩ (s.rules.getD []) rs' hu]
        | noHost =>
            rw [hu] at h
            have hs1 : { s with rules := some (s.rules.getD [] ++ [⟨host, [⟨path, pt, b⟩]⟩]) } = s1 :=
              Except.ok.inj h
            subst hs1
            simp only [Option.getD_some]
            rw [updateRules_noHost_append host ⟨path, pt, b⟩ (s.rules.getD []) hu]
  · intro s1 rs r host p2 pt2 sn2 sp2 ref2 b2 hrules hfirst hp hback
    obtain ⟨rs', h1, h2, h3⟩ := updateRules_found host ⟨p2, pt2, b2⟩ rs r hfirst hp
    refine ⟨rs', ?_, h2, h3⟩
    unfold Ingress.add_rule
    rw [hback]
    simp only [hrules, Option.getD_some]
    rw [h1]
  · intro s hosts hosts2 sn
    unfold Ingress.add_tls
    cases htls : s.tls with
    | none => simp
    | some l =>
        cases l with
        | nil => simp
        | cons e es =>
            by_cases hany : (e :: es).any (fun t => t.secretName = sn)
            · simp [hany, htls]
            · simp [hany, List.any_append]

/-- C9 (witness): a concrete run — repeating
`add_rule("h", "/", Prefix, service_name="svc", service_port=80)` is a no-op,
adding `"/x"` under the existing host `"h"` appends to its path list keeping a
single rule, and re-adding TLS for secret `"sec"` is a no-op. -/
theorem c9_ingress_rule_and_tls_idempotence_witness :
    Ingress.add_rule
        ⟨⟨"ing", none, none⟩,
          some [⟨"h", [⟨"/", "Prefix", ⟨none, some (some "svc", BackendPort.number 80)⟩⟩]⟩],
          none⟩
        "h" "/" "Prefix" (some "svc") (some (PortArg.int 80)) none
      = Except.ok
        ⟨⟨"ing", none, none⟩,
          some [⟨"h", [⟨"/", "Prefix", ⟨none, some (some "svc", BackendPort.number 80)⟩⟩]⟩],
          none⟩
    ∧ (∃ rs', Ingress.add_rule
        ⟨⟨"ing", none, none⟩,
          some [⟨"h", [⟨"/", "Prefix", ⟨none, some (some "svc", BackendPort.number 80)⟩⟩]⟩],
          none⟩
        "h" "/x" "Prefix" (some "svc") (some (PortArg.int 80)) none
        = Except.ok
          { (⟨⟨"ing", none, none⟩,
              some [⟨"h", [⟨"/", "Prefix", ⟨none, some (some "svc", BackendPort.number 80)⟩⟩]⟩],
              none⟩ : Ingress) with rules := some rs' }
      ∧ rs'.length
          = [(⟨"h", [⟨"/", "Prefix", ⟨none, some (some "svc", BackendPort.number 80)⟩⟩]⟩ : IngRule)].length
      ∧ firstHost "h" rs'
          = some { (⟨"h", [⟨"/", "Prefix", ⟨none, some (some "svc", BackendPort.number 80)⟩⟩]⟩ : IngRule) with
              paths := [⟨"/", "Prefix", ⟨none, some (some "svc", BackendPort.number 80)⟩⟩]
                ++ [⟨"/x", "Prefix", ⟨none, some (some "svc", BackendPort.number 80)⟩⟩] })
    ∧ Ingress.add_tls
        (Ingress.add_tls ⟨⟨"ing", none, none⟩, none, none⟩ ["a"] (some "sec")) ["b"] (some "sec")
      = Ingress.add_tls ⟨⟨"ing", none, none⟩, none, none⟩ ["a"] (some "sec") := by
  refine ⟨?_, ?_, ?_⟩
  · exact c9_ingress_rule_and_tls_idempotence.1
      ⟨⟨"ing", none, none⟩, none, none⟩
      ⟨⟨"ing", none, none⟩,
        some [⟨"h", [⟨"/", "Prefix", ⟨none, some (some "svc", BackendPort.number 80)⟩⟩]⟩],
        none⟩
      "h" "/" "Prefix" (some "svc") (some (PortArg.int 80)) none rfl
  · exact c9_ingress_rule_and_tls_idempotence.2.1
      ⟨⟨"ing", none, none⟩,
        some [⟨"h", [⟨"/", "Prefix", ⟨none, some (some "svc", BackendPort.number 80)⟩⟩]⟩],
        none⟩
      [⟨"h", [⟨"/", "Prefix", ⟨none, some (some "svc", BackendPort.number 80)⟩⟩]⟩]
      ⟨"h", [⟨"/", "Prefix", ⟨none, some (some "svc", BackendPort.number 80)⟩⟩]⟩
      "h" "/x" "Prefix" (some "svc") (some (PortArg.int 80)) none
      ⟨none, some (some "svc", BackendPort.number 80)⟩
      rfl (by decide) (by decide) rfl
  · exact c9_ingress_rule_and_tls_idempotence.2.2
      ⟨⟨"ing", none, none⟩, none, none⟩ ["a"] ["b"] (some "sec")
